import Mathlib

/-!
Verification of the XEITIN waterless-diffuser BLE protocol client.

The definitions below are a shallow embedding of the repository's Python
sources:

* `src/src/xeitin_diffuser.py` — the standalone client library
  (`_calculate_checksum`, `_build_packet`, `DiffuserSchedule`,
  `XEITINDiffuser.set_schedule`);
* `src/custom_components/xeitin_diffuser/const.py` — protocol constants,
  pre-built packets and `build_packet`;
* `src/custom_components/xeitin_diffuser/switch.py`, `number.py`,
  `select.py` — the Home-Assistant entity layer and the shared
  `XEITINBLEDevice` session (`send_command`, the optimistic state cache).

Python `bytes` values are embedded as `List Nat` whose elements are < 256;
Python `int` as `Nat` (or `Int` where negatives arise); fallible code as
`Option`/`Except`.
-/

namespace Xeitin

/-- Protocol constant from const.py / xeitin_diffuser.py: `HEADER = bytes([0x55, 0xAA])`. -/
def HEADER : List Nat := [0x55, 0xAA]

/-- Protocol constant: `FOOTER = bytes([0x5A])`. -/
def FOOTER : List Nat := [0x5A]

/-- Embeds `_calculate_checksum` from xeitin_diffuser.py:
`return (0x101 - sum(data)) & 0xFF`.  Python's `& 0xFF` on a possibly
negative int is the euclidean remainder mod 256, which is `Int.emod`. -/
def _calculate_checksum (data : List Nat) : Nat :=
  (((0x101 : Int) - (data.sum : Int)) % 256).toNat

/-- Embeds `_build_packet` from xeitin_diffuser.py (identical logic to
`build_packet` in const.py):

    length = 1 + len(data)
    payload = bytes([length, cmd]) + data
    checksum = _calculate_checksum(payload)
    return HEADER + payload + bytes([checksum]) + FOOTER

`bytes([length, cmd])` raises `ValueError` when a value exceeds 255, which is
the only failure path; it is embedded as `none`. -/
def build_packet (cmd : Nat) (data : List Nat) : Option (List Nat) :=
  let length := 1 + data.length
  if length ≤ 255 ∧ cmd ≤ 255 then
    let payload := [length, cmd] ++ data
    let checksum := _calculate_checksum payload
    some (HEADER ++ payload ++ [checksum] ++ FOOTER)
  else
    none

/-- const.py: `PACKET_INIT = bytes.fromhex("55AA0147B95A")`. -/
def PACKET_INIT : List Nat := [0x55, 0xAA, 0x01, 0x47, 0xB9, 0x5A]

/-- const.py: `PACKET_POWER_ON = bytes.fromhex("55AA04071001E55A")`. -/
def PACKET_POWER_ON : List Nat := [0x55, 0xAA, 0x04, 0x07, 0x10, 0x01, 0xE5, 0x5A]

/-- const.py: `PACKET_POWER_OFF = bytes.fromhex("55AA04071000E65A")`. -/
def PACKET_POWER_OFF : List Nat := [0x55, 0xAA, 0x04, 0x07, 0x10, 0x00, 0xE6, 0x5A]

/-- const.py: `PACKET_GET_STATUS = bytes.fromhex("55AA0108F85A")`. -/
def PACKET_GET_STATUS : List Nat := [0x55, 0xAA, 0x01, 0x08, 0xF8, 0x5A]

/-- const.py: `PACKET_KEEPALIVE = bytes.fromhex("55AA01A15F5A")`. -/
def PACKET_KEEPALIVE : List Nat := [0x55, 0xAA, 0x01, 0xA1, 0x5F, 0x5A]

/-- const.py: `PACKET_FAN_BOOST_ON = bytes.fromhex("55AA020301FB5A")`. -/
def PACKET_FAN_BOOST_ON : List Nat := [0x55, 0xAA, 0x02, 0x03, 0x01, 0xFB, 0x5A]

/-- const.py: `PACKET_FAN_BOOST_OFF = bytes.fromhex("55AA020300FC5A")`. -/
def PACKET_FAN_BOOST_OFF : List Nat := [0x55, 0xAA, 0x02, 0x03, 0x00, 0xFC, 0x5A]

/-- const.py: `MODE_PACKETS = [PACKET_MODE_1, ..., PACKET_MODE_5]`
(each `55AA0202*5A` with the mode byte and its checksum). -/
def MODE_PACKETS : List (List Nat) :=
  [ [0x55, 0xAA, 0x02, 0x02, 0x01, 0xFC, 0x5A],
    [0x55, 0xAA, 0x02, 0x02, 0x02, 0xFB, 0x5A],
    [0x55, 0xAA, 0x02, 0x02, 0x03, 0xFA, 0x5A],
    [0x55, 0xAA, 0x02, 0x02, 0x04, 0xF9, 0x5A],
    [0x55, 0xAA, 0x02, 0x02, 0x05, 0xF8, 0x5A] ]

/-- const.py: the `INTENSITY_PACKETS` dict, keys 1..10.  Dict lookup is
embedded as an `Option`-valued function (`none` = key absent). -/
def INTENSITY_PACKETS : Nat → Option (List Nat)
  | 1 => some [0x55, 0xAA, 0x02, 0x05, 0x01, 0xF9, 0x5A]
  | 2 => some [0x55, 0xAA, 0x02, 0x05, 0x02, 0xF8, 0x5A]
  | 3 => some [0x55, 0xAA, 0x02, 0x05, 0x03, 0xF7, 0x5A]
  | 4 => some [0x55, 0xAA, 0x02, 0x05, 0x04, 0xF6, 0x5A]
  | 5 => some [0x55, 0xAA, 0x02, 0x05, 0x05, 0xF5, 0x5A]
  | 6 => some [0x55, 0xAA, 0x02, 0x05, 0x06, 0xF4, 0x5A]
  | 7 => some [0x55, 0xAA, 0x02, 0x05, 0x07, 0xF3, 0x5A]
  | 8 => some [0x55, 0xAA, 0x02, 0x05, 0x08, 0xF2, 0x5A]
  | 9 => some [0x55, 0xAA, 0x02, 0x05, 0x09, 0xF1, 0x5A]
  | 10 => some [0x55, 0xAA, 0x02, 0x05, 0x0A, 0xF0, 0x5A]
  | _ => none

/-- const.py: the `TIMER_PACKETS` dict, keys 0, 30, 60, 120, 180 (minutes). -/
def TIMER_PACKETS : Nat → Option (List Nat)
  | 0 => some [0x55, 0xAA, 0x02, 0x06, 0x00, 0xF9, 0x5A]
  | 30 => some [0x55, 0xAA, 0x02, 0x06, 0x1E, 0xDB, 0x5A]
  | 60 => some [0x55, 0xAA, 0x02, 0x06, 0x3C, 0xBB, 0x5A]
  | 120 => some [0x55, 0xAA, 0x02, 0x06, 0x78, 0x7B, 0x5A]
  | 180 => some [0x55, 0xAA, 0x02, 0x06, 0xB4, 0x3B, 0x5A]
  | _ => none

/-- const.py: `MODE_OPTIONS = ["Mode I", ..., "Mode V"]`. -/
def MODE_OPTIONS : List String :=
  ["Mode I", "Mode II", "Mode III", "Mode IV", "Mode V"]

/-- const.py: `TIMER_OPTIONS = ["Off", "30 minutes", "1 hour", "2 hours", "3 hours"]`. -/
def TIMER_OPTIONS : List String :=
  ["Off", "30 minutes", "1 hour", "2 hours", "3 hours"]

/-- const.py: `TIMER_VALUES = [0, 30, 60, 120, 180]`. -/
def TIMER_VALUES : List Nat := [0, 30, 60, 120, 180]

/-- Claim C1: for every command byte and every payload of length 0..250, the
codec checksum equals `(0x101 - LENGTH - COMMAND - sum PAYLOAD) mod 256` with
`LENGTH = 1 + len PAYLOAD`, lies in 0..255, and satisfies
`(LENGTH + COMMAND + sum PAYLOAD + checksum) mod 256 = 1`. -/
theorem C1_checksum_property (cmd : Nat) (payload : List Nat)
    (hcmd : cmd ≤ 255) (hlen : payload.length ≤ 250)
    (hbytes : ∀ b ∈ payload, b ≤ 255) :
    _calculate_checksum ([1 + payload.length, cmd] ++ payload) =
      (((0x101 : Int) - (1 + payload.length) - cmd - (payload.sum : Nat)) % 256).toNat
    ∧ _calculate_checksum ([1 + payload.length, cmd] ++ payload) ≤ 255
    ∧ ((1 + payload.length) + cmd + payload.sum +
        _calculate_checksum ([1 + payload.length, cmd] ++ payload)) % 256 = 1 := by
  unfold _calculate_checksum
  simp only [List.sum_append, List.sum_cons, List.sum_nil]
  refine ⟨?_, ?_, ?_⟩ <;> omega

/-- Witness for C1 at command `0x07` and payload `[0x10, 0x01, 0x00]`. -/
theorem C1_checksum_property_witness :
    _calculate_checksum ([1 + ([0x10, 0x01, 0x00] : List Nat).length, 0x07] ++ [0x10, 0x01, 0x00]) =
      (((0x101 : Int) - (1 + ([0x10, 0x01, 0x00] : List Nat).length) - 0x07 -
        (([0x10, 0x01, 0x00] : List Nat).sum : Nat)) % 256).toNat
    ∧ _calculate_checksum ([1 + ([0x10, 0x01, 0x00] : List Nat).length, 0x07] ++ [0x10, 0x01, 0x00]) ≤ 255
    ∧ ((1 + ([0x10, 0x01, 0x00] : List Nat).length) + 0x07 + ([0x10, 0x01, 0x00] : List Nat).sum +
        _calculate_checksum ([1 + ([0x10, 0x01, 0x00] : List Nat).length, 0x07] ++ [0x10, 0x01, 0x00])) % 256 = 1 :=
  C1_checksum_property 0x07 [0x10, 0x01, 0x00] (by decide) (by decide) (by decide)

/-- Claim C2: the frame builder against the catalog's stored byte vectors.
The builder output at command `0x07`, payload `[0x10, 0x01, 0x00]` is the
9-byte frame `55AA0407100100E55A`, NOT the 8-byte stored constant
`55AA04071001E55A` (whose own length byte, `0x04`, promises command plus three
data bytes while only two are present); likewise for power-off.  The
zero-payload vectors (init, get-status, keepalive) and all ten intensity
vectors do match the builder. -/
theorem C2_known_vectors :
    build_packet 0x07 [0x10, 0x01, 0x00] =
        some [0x55, 0xAA, 0x04, 0x07, 0x10, 0x01, 0x00, 0xE5, 0x5A]
    ∧ build_packet 0x07 [0x10, 0x01, 0x00] ≠ some PACKET_POWER_ON
    ∧ build_packet 0x07 [0x10, 0x00, 0x00] =
        some [0x55, 0xAA, 0x04, 0x07, 0x10, 0x00, 0x00, 0xE6, 0x5A]
    ∧ build_packet 0x07 [0x10, 0x00, 0x00] ≠ some PACKET_POWER_OFF
    ∧ build_packet 0x08 [] = some PACKET_GET_STATUS
    ∧ build_packet 0x47 [] = some PACKET_INIT
    ∧ build_packet 0xA1 [] = some PACKET_KEEPALIVE
    ∧ build_packet 0x03 [0x01] = some PACKET_FAN_BOOST_ON
    ∧ build_packet 0x02 [0x01] = some (MODE_PACKETS.getD 0 [])
    ∧ build_packet 0x05 [0x01] = INTENSITY_PACKETS 1
    ∧ build_packet 0x05 [0x02] = INTENSITY_PACKETS 2
    ∧ build_packet 0x05 [0x03] = INTENSITY_PACKETS 3
    ∧ build_packet 0x05 [0x04] = INTENSITY_PACKETS 4
    ∧ build_packet 0x05 [0x05] = INTENSITY_PACKETS 5
    ∧ build_packet 0x05 [0x06] = INTENSITY_PACKETS 6
    ∧ build_packet 0x05 [0x07] = INTENSITY_PACKETS 7
    ∧ build_packet 0x05 [0x08] = INTENSITY_PACKETS 8
    ∧ build_packet 0x05 [0x09] = INTENSITY_PACKETS 9
    ∧ build_packet 0x05 [0x0A] = INTENSITY_PACKETS 10 := by
  decide

set_option maxRecDepth 4000 in
/-- Claim C6 counterexample: a payload of length 254 (`length` byte 255) is
accepted by `build_packet` — no failure occurs, contradicting the claim that
every payload longer than 253 bytes fails with `EncodingError`. -/
theorem C6_counterexample :
    (build_packet 0x07 (List.replicate 254 0)).isSome = true := by decide

/-- Claim C6 (amended): `build_packet` has no explicit payload-length guard; it
succeeds exactly when `len payload ≤ 254` (so that the length byte
`1 + len payload` still fits in a byte), constructing the frame per the §3
layout, and for longer payloads the byte conversion of the length value fails
(Python `ValueError`, not a protocol-level `EncodingError`). -/
theorem C6_build_packet_bounds (cmd : Nat) (data : List Nat) (hc : cmd ≤ 255) :
    ((build_packet cmd data).isSome ↔ data.length ≤ 254)
    ∧ (data.length ≤ 254 →
        build_packet cmd data =
          some (HEADER ++ [1 + data.length, cmd] ++ data ++
            [_calculate_checksum ([1 + data.length, cmd] ++ data)] ++ FOOTER)) := by
  constructor
  · by_cases h : data.length ≤ 254
    · rw [build_packet, if_pos ⟨by omega, hc⟩]
      simpa using h
    · rw [build_packet, if_neg (by omega)]
      simpa using h
  · intro h
    rw [build_packet, if_pos ⟨by omega, hc⟩]
    simp [List.append_assoc]

/-- Witness for C6 (amended) at command `0x14` and a 2-byte payload. -/
theorem C6_build_packet_bounds_witness :
    ((build_packet 0x14 [0x00, 0x03]).isSome ↔ ([0x00, 0x03] : List Nat).length ≤ 254)
    ∧ (([0x00, 0x03] : List Nat).length ≤ 254 →
        build_packet 0x14 [0x00, 0x03] =
          some (HEADER ++ [1 + ([0x00, 0x03] : List Nat).length, 0x14] ++ [0x00, 0x03] ++
            [_calculate_checksum ([1 + ([0x00, 0x03] : List Nat).length, 0x14] ++ [0x00, 0x03])] ++ FOOTER)) :=
  C6_build_packet_bounds 0x14 [0x00, 0x03] (by decide)

/-- Modelled from the spec: `parse_frame` and its error taxonomy (§4.1, §7) are
absent from src/ — the repository never parses inbound frames (notifications
are only hex-logged) — so the parser is modelled from the spec's words. -/
inductive ParseError where
  | BadHeader
  | BadFooter
  | ChecksumMismatch
  | Truncated
  deriving DecidableEq, Repr

/-- Modelled from the spec: `parse_frame(bytes) -> Frame | ParseError` validates
header, footer and checksum, returning the command byte and payload of a
well-formed frame and a `ParseError` (BadHeader, BadFooter, ChecksumMismatch,
Truncated) otherwise.  The length byte locates the payload: a frame carrying a
payload of `k` bytes has length byte `k + 1` and total size `k + 6`. -/
def parse_frame (frame : List Nat) : Except ParseError (Nat × List Nat) :=
  match frame with
  | 0x55 :: 0xAA :: lenB :: cmd :: rest =>
    if rest.length = lenB + 1 then
      if rest.getD lenB 0 = 0x5A then
        if rest.getD (lenB - 1) 0 = _calculate_checksum ([lenB, cmd] ++ rest.take (lenB - 1)) then
          Except.ok (cmd, rest.take (lenB - 1))
        else Except.error ParseError.ChecksumMismatch
      else Except.error ParseError.BadFooter
    else Except.error ParseError.Truncated
  | _ :: _ :: _ :: _ :: _ => Except.error ParseError.BadHeader
  | _ => Except.error ParseError.Truncated

/-- Claim C7: for all valid command/payload pairs, parsing a built frame
succeeds and returns the original command and payload — every frame the codec
produces round-trips through header/footer/checksum verification. -/
theorem C7_roundtrip (cmd : Nat) (data : List Nat) (hc : cmd ≤ 255)
    (hlen : data.length ≤ 254) (hb : ∀ b ∈ data, b ≤ 255) :
    ∃ f, build_packet cmd data = some f ∧ parse_frame f = Except.ok (cmd, data) := by
  refine ⟨0x55 :: 0xAA :: (1 + data.length) :: cmd ::
    (data ++ [_calculate_checksum ([1 + data.length, cmd] ++ data), 0x5A]), ?_, ?_⟩
  · rw [build_packet, if_pos ⟨by omega, hc⟩]
    simp [HEADER, FOOTER, List.append_assoc]
  · rw [parse_frame]
    rw [if_pos (by simp; omega)]
    rw [List.getD_append_right _ _ _ _ (by omega)]
    have hidx : 1 + data.length - data.length = 1 := by omega
    rw [hidx]
    simp only [List.getD_cons_succ, List.getD_cons_zero, if_true]
    have hsub : 1 + data.length - 1 = data.length := by omega
    rw [hsub, List.take_left' rfl,
      List.getD_append_right _ _ _ _ (Nat.le_refl _), Nat.sub_self]
    simp only [List.getD_cons_zero, if_true]

/-- Embeds the mutable state of `XEITINBLEDevice` (switch.py).  Python's
dynamically added `mode` attribute — assigned only inside
`XEITINModeSelect.async_select_option` (select.py), never in `__init__` — is
an `Option Nat`: `none` models the attribute not existing, so that reading it
raises `AttributeError`. -/
structure DevState where
  available : Bool
  power_on : Bool
  fan_boost : Bool
  modes_active : List Bool
  timer : Nat
  intensity : Nat
  mode : Option Nat
  deriving DecidableEq, Repr

/-- `XEITINBLEDevice.__init__`: optimistically available, power off, fan off,
`[False] * len(MODE_OPTIONS)` mode toggles, timer 0, intensity 5, and no
`mode` attribute. -/
def initState : DevState :=
  { available := true, power_on := false, fan_boost := false,
    modes_active := List.replicate MODE_OPTIONS.length false,
    timer := 0, intensity := 5, mode := none }

/-- One BLE session's transport behavior: whether the connect and each of the
two characteristic writes succeed (a `BleakError` is raised otherwise). -/
structure Transport where
  connectOk : Bool
  writeInitOk : Bool
  writeCmdOk : Bool
  deriving DecidableEq, Repr

/-- The observable transport actions of one `send_command` call, in order. -/
inductive BLEEvent where
  | connectAttempt
  | write (frame : List Nat)
  | disconnect
  deriving DecidableEq, Repr

/-- Whether a transport event is a characteristic write. -/
def BLEEvent.isWrite : BLEEvent → Bool
  | BLEEvent.write _ => true
  | _ => false

/-- Embeds `XEITINBLEDevice.send_command` (switch.py).  Under the session lock
it opens a fresh `BleakClient` connection, writes `PACKET_INIT`, sleeps 0.3 s,
writes the requested packet, sleeps 0.2 s, and leaves the `async with` block
(which disconnects whenever the connect succeeded, also on a failed write);
every `BleakError` is caught at this boundary, setting `self._available` and
returning the boolean outcome — no exception escapes to the entity layer.
Returns the new state, the result, and the transport events in order. -/
def send_command (s : DevState) (packet : List Nat) (t : Transport) :
    DevState × Bool × List BLEEvent :=
  if t.connectOk then
    if t.writeInitOk then
      if t.writeCmdOk then
        ({ s with available := true }, true,
          [BLEEvent.connectAttempt, BLEEvent.write PACKET_INIT,
           BLEEvent.write packet, BLEEvent.disconnect])
      else
        ({ s with available := false }, false,
          [BLEEvent.connectAttempt, BLEEvent.write PACKET_INIT,
           BLEEvent.write packet, BLEEvent.disconnect])
    else
      ({ s with available := false }, false,
        [BLEEvent.connectAttempt, BLEEvent.write PACKET_INIT, BLEEvent.disconnect])
  else
    ({ s with available := false }, false, [BLEEvent.connectAttempt])

/-- Embeds `int(value)` plus the clamping in
`XEITINIntensityNumber.async_set_native_value` (number.py):
`if level < 1: level = 1` / `elif level > 10: level = 10`. -/
def clampLevel (value : Int) : Nat :=
  if value < 1 then 1 else if value > 10 then 10 else value.toNat

/-- The entity-level operations of the integration: the power and fan-boost
switches, the five per-mode switches, the intensity number, and the mode and
timer selects (switch.py, number.py, select.py). -/
inductive Op where
  | powerOn
  | powerOff
  | fanOn
  | fanOff
  | modeSwitchOn (idx : Nat)
  | modeSwitchOff (idx : Nat)
  | setIntensity (value : Int)
  | selectMode (opt : String)
  | selectTimer (opt : String)
  deriving DecidableEq, Repr

/-- One entity-level call, with each inner `send_command` abstracted to its
boolean outcome `ok` (`send_command` also stores that outcome in `available`).
Mirrors the cache-update code paths: the switches guard their cache update
with `if await self._ble_device.send_command(...)`; `modeSwitchOff` sends
nothing and updates locally; the intensity, mode-select and timer-select
handlers `await` the send and then assign their cache field unconditionally;
invalid option strings raise `ValueError` at `.index(...)`, caught before any
send. -/
def step (s : DevState) (op : Op) (ok : Bool) : DevState :=
  match op with
  | Op.powerOn =>
    if ok then { s with available := ok, power_on := true } else { s with available := ok }
  | Op.powerOff =>
    if ok then { s with available := ok, power_on := false } else { s with available := ok }
  | Op.fanOn =>
    if ok then { s with available := ok, fan_boost := true } else { s with available := ok }
  | Op.fanOff =>
    if ok then { s with available := ok, fan_boost := false } else { s with available := ok }
  | Op.modeSwitchOn idx =>
    if ok then { s with available := ok, modes_active := s.modes_active.set idx true }
    else { s with available := ok }
  | Op.modeSwitchOff idx =>
    { s with modes_active := s.modes_active.set idx false }
  | Op.setIntensity value =>
    if (INTENSITY_PACKETS (clampLevel value)).isSome then
      { s with available := ok, intensity := clampLevel value }
    else s
  | Op.selectMode o =>
    if o ∈ MODE_OPTIONS then
      { s with available := ok, mode := some (MODE_OPTIONS.indexOf o) }
    else s
  | Op.selectTimer o =>
    if o ∈ TIMER_OPTIONS then
      { s with available := ok, timer := TIMER_VALUES.getD (TIMER_OPTIONS.indexOf o) 0 }
    else s

/-- The frames an entity-level call hands to `send_command`, in order (empty
exactly when no transport I/O is attempted). -/
def opSends : Op → List (List Nat)
  | Op.powerOn => [PACKET_POWER_ON]
  | Op.powerOff => [PACKET_POWER_OFF]
  | Op.fanOn => [PACKET_FAN_BOOST_ON]
  | Op.fanOff => [PACKET_FAN_BOOST_OFF]
  | Op.modeSwitchOn idx => [(MODE_PACKETS.getD idx [])]
  | Op.modeSwitchOff _ => []
  | Op.setIntensity value =>
    match INTENSITY_PACKETS (clampLevel value) with
    | some p => [p]
    | none => []
  | Op.selectMode o =>
    if o ∈ MODE_OPTIONS then [(MODE_PACKETS.getD (MODE_OPTIONS.indexOf o) [])] else []
  | Op.selectTimer o =>
    if o ∈ TIMER_OPTIONS then
      [(TIMER_PACKETS (TIMER_VALUES.getD (TIMER_OPTIONS.indexOf o) 0)).getD []]
    else []

/-- A sequence of entity-level calls, each paired with its transport outcome. -/
def runOps (s : DevState) (ops : List (Op × Bool)) : DevState :=
  ops.foldl (fun st ob => step st ob.1 ob.2) s

/-- `XEITINModeSelect.current_option` (select.py) reads `ble_device.mode`;
`none` is the `AttributeError` raised when the attribute was never assigned.
When the attribute exists, out-of-range indices fall back to the first
option. -/
def current_option (s : DevState) : Option String :=
  match s.mode with
  | none => none
  | some idx =>
    if idx < MODE_OPTIONS.length then some (MODE_OPTIONS.getD idx "")
    else some (MODE_OPTIONS.getD 0 "")

/-- The clamped intensity level is always one of the catalog keys 1..10. -/
theorem intensity_lookup_isSome (v : Int) :
    (INTENSITY_PACKETS (clampLevel v)).isSome = true := by
  have h : 1 ≤ clampLevel v ∧ clampLevel v ≤ 10 := by
    unfold clampLevel
    split
    · omega
    · split
      · omega
      · constructor <;> omega
  have hball : ∀ k < 11, 1 ≤ k → (INTENSITY_PACKETS k).isSome = true := by decide
  exact hball _ (by omega) h.1

/-- Claim C5: every send call opens a fresh transport connection, writes the
INIT handshake frame first (regardless of the requested command), then the
requested frame, then closes the connection; it returns success and sets
`available = true` exactly when all writes complete without transport error;
on any transport failure it sets `available = false` and returns failure
without retry (at most the two writes are ever attempted); the cached entity
fields are untouched; and `send_command` is a total boolean-returning
function — the transport failure never escapes as an exception. -/
theorem C5_send_command (s : DevState) (packet : List Nat) (t : Transport) :
    ((send_command s packet t).2.1 = (t.connectOk && t.writeInitOk && t.writeCmdOk))
    ∧ ((send_command s packet t).1.available = (send_command s packet t).2.1)
    ∧ ((send_command s packet t).2.2.head? = some BLEEvent.connectAttempt)
    ∧ ((send_command s packet t).2.1 = true →
        (send_command s packet t).2.2 =
          [BLEEvent.connectAttempt, BLEEvent.write PACKET_INIT,
           BLEEvent.write packet, BLEEvent.disconnect])
    ∧ (t.connectOk = true →
        (send_command s packet t).2.2.getD 1 BLEEvent.disconnect =
          BLEEvent.write PACKET_INIT
        ∧ (send_command s packet t).2.2.getLast? = some BLEEvent.disconnect)
    ∧ ((send_command s packet t).2.2.countP BLEEvent.isWrite ≤ 2)
    ∧ ((send_command s packet t).1.power_on = s.power_on
        ∧ (send_command s packet t).1.fan_boost = s.fan_boost
        ∧ (send_command s packet t).1.modes_active = s.modes_active
        ∧ (send_command s packet t).1.timer = s.timer
        ∧ (send_command s packet t).1.intensity = s.intensity
        ∧ (send_command s packet t).1.mode = s.mode) := by
  obtain ⟨c, w1, w2⟩ := t
  cases c <;> cases w1 <;> cases w2 <;>
    simp [send_command, BLEEvent.isWrite, List.countP, List.countP.go]

/-- Witness for C5: a fully successful session sending the power-on packet. -/
theorem C5_send_command_witness :
    ((send_command initState PACKET_POWER_ON ⟨true, true, true⟩).2.1 =
        (true && true && true))
    ∧ ((send_command initState PACKET_POWER_ON ⟨true, true, true⟩).1.available =
        (send_command initState PACKET_POWER_ON ⟨true, true, true⟩).2.1)
    ∧ ((send_command initState PACKET_POWER_ON ⟨true, true, true⟩).2.2.head? =
        some BLEEvent.connectAttempt)
    ∧ ((send_command initState PACKET_POWER_ON ⟨true, true, true⟩).2.1 = true →
        (send_command initState PACKET_POWER_ON ⟨true, true, true⟩).2.2 =
          [BLEEvent.connectAttempt, BLEEvent.write PACKET_INIT,
           BLEEvent.write PACKET_POWER_ON, BLEEvent.disconnect])
    ∧ ((true : Bool) = true →
        (send_command initState PACKET_POWER_ON ⟨true, true, true⟩).2.2.getD 1
            BLEEvent.disconnect = BLEEvent.write PACKET_INIT
        ∧ (send_command initState PACKET_POWER_ON ⟨true, true, true⟩).2.2.getLast? =
            some BLEEvent.disconnect)
    ∧ ((send_command initState PACKET_POWER_ON ⟨true, true, true⟩).2.2.countP
        BLEEvent.isWrite ≤ 2)
    ∧ ((send_command initState PACKET_POWER_ON ⟨true, true, true⟩).1.power_on =
          initState.power_on
        ∧ (send_command initState PACKET_POWER_ON ⟨true, true, true⟩).1.fan_boost =
            initState.fan_boost
        ∧ (send_command initState PACKET_POWER_ON ⟨true, true, true⟩).1.modes_active =
            initState.modes_active
        ∧ (send_command initState PACKET_POWER_ON ⟨true, true, true⟩).1.timer =
            initState.timer
        ∧ (send_command initState PACKET_POWER_ON ⟨true, true, true⟩).1.intensity =
            initState.intensity
        ∧ (send_command initState PACKET_POWER_ON ⟨true, true, true⟩).1.mode =
            initState.mode) :=
  C5_send_command initState PACKET_POWER_ON ⟨true, true, true⟩

/-- Claim C3 counterexample: with a failing transport, the intensity entity
still overwrites its cache: from the fresh state (intensity 5), a failed
set-intensity-7 call leaves intensity 7, not the pre-call value 5. -/
theorem C3_counterexample :
    (step initState (Op.setIntensity 7) false).intensity = 7
    ∧ initState.intensity = 5
    ∧ (step initState (Op.setIntensity 7) false).available = false := by decide

/-- Claim C3 (amended): the power, fan-boost and mode-on switches update their
cache fields only after a successful send and a failed send leaves them at the
pre-call value; mode-off updates the local cache unconditionally and sends no
frame; but the intensity, timer and mode-select entities assign their cache
fields unconditionally once the send attempt returns, regardless of its
outcome. -/
theorem C3_cache_update_policy (s : DevState) (ok : Bool) (i : Nat) (v : Int)
    (ot om : String) :
    ((step s Op.powerOn false).power_on = s.power_on)
    ∧ ((step s Op.powerOn true).power_on = true)
    ∧ ((step s Op.powerOff false).power_on = s.power_on)
    ∧ ((step s Op.powerOff true).power_on = false)
    ∧ ((step s Op.fanOn false).fan_boost = s.fan_boost)
    ∧ ((step s Op.fanOn true).fan_boost = true)
    ∧ ((step s Op.fanOff false).fan_boost = s.fan_boost)
    ∧ ((step s Op.fanOff true).fan_boost = false)
    ∧ ((step s (Op.modeSwitchOn i) false).modes_active = s.modes_active)
    ∧ ((step s (Op.modeSwitchOn i) true).modes_active = s.modes_active.set i true)
    ∧ ((step s (Op.modeSwitchOff i) ok).modes_active = s.modes_active.set i false)
    ∧ (opSends (Op.modeSwitchOff i) = [])
    ∧ ((step s (Op.setIntensity v) ok).intensity = clampLevel v)
    ∧ (ot ∈ TIMER_OPTIONS →
        (step s (Op.selectTimer ot) ok).timer =
          TIMER_VALUES.getD (TIMER_OPTIONS.indexOf ot) 0)
    ∧ (om ∈ MODE_OPTIONS →
        (step s (Op.selectMode om) ok).mode = some (MODE_OPTIONS.indexOf om)) := by
  refine ⟨by simp [step], by simp [step], by simp [step], by simp [step],
    by simp [step], by simp [step], by simp [step], by simp [step],
    by simp [step], by simp [step], by simp [step], by simp [opSends],
    by simp [step, intensity_lookup_isSome], ?_, ?_⟩
  · intro h
    simp [step, h]
  · intro h
    simp [step, h]

/-- Witness for C3 (amended) at the fresh state, a successful outcome, mode
index 2, intensity 9 and the 30-minute timer option. -/
theorem C3_cache_update_policy_witness :
    ((step initState Op.powerOn false).power_on = initState.power_on)
    ∧ ((step initState Op.powerOn true).power_on = true)
    ∧ ((step initState Op.powerOff false).power_on = initState.power_on)
    ∧ ((step initState Op.powerOff true).power_on = false)
    ∧ ((step initState Op.fanOn false).fan_boost = initState.fan_boost)
    ∧ ((step initState Op.fanOn true).fan_boost = true)
    ∧ ((step initState Op.fanOff false).fan_boost = initState.fan_boost)
    ∧ ((step initState Op.fanOff true).fan_boost = false)
    ∧ ((step initState (Op.modeSwitchOn 2) false).modes_active =
        initState.modes_active)
    ∧ ((step initState (Op.modeSwitchOn 2) true).modes_active =
        initState.modes_active.set 2 true)
    ∧ ((step initState (Op.modeSwitchOff 2) true).modes_active =
        initState.modes_active.set 2 false)
    ∧ (opSends (Op.modeSwitchOff 2) = [])
    ∧ ((step initState (Op.setIntensity 9) true).intensity = clampLevel 9)
    ∧ ("30 minutes" ∈ TIMER_OPTIONS →
        (step initState (Op.selectTimer "30 minutes") true).timer =
          TIMER_VALUES.getD (TIMER_OPTIONS.indexOf "30 minutes") 0)
    ∧ ("Mode III" ∈ MODE_OPTIONS →
        (step initState (Op.selectMode "Mode III") true).mode =
          some (MODE_OPTIONS.indexOf "Mode III")) :=
  C3_cache_update_policy initState true 2 9 "30 minutes" "Mode III"

/-- Claim C4 counterexample: setting intensity 0 produces one transport call
(the intensity-1 packet) and silently clamps the value to 1 — not zero
transport calls with a validation error. -/
theorem C4_counterexample :
    opSends (Op.setIntensity 0) = [[0x55, 0xAA, 0x02, 0x05, 0x01, 0xF9, 0x5A]]
    ∧ (step initState (Op.setIntensity 0) true).intensity = 1 := by decide

/-- Claim C4 (amended): out-of-range intensities are silently clamped into
range at the number entity (0 becomes 1, 11 becomes 10) and do reach the
transport (exactly one call); invalid timer and mode option strings are
rejected before any transport I/O with zero calls and unchanged state (the
`ValueError` from `.index` is caught and logged); no `InvalidParameterError`
type exists in the code. -/
theorem C4_out_of_range (s : DevState) (ok : Bool) :
    opSends (Op.setIntensity 0) = [[0x55, 0xAA, 0x02, 0x05, 0x01, 0xF9, 0x5A]]
    ∧ clampLevel 0 = 1
    ∧ opSends (Op.setIntensity 11) = [[0x55, 0xAA, 0x02, 0x05, 0x0A, 0xF0, 0x5A]]
    ∧ clampLevel 11 = 10
    ∧ opSends (Op.selectTimer "45 minutes") = []
    ∧ step s (Op.selectTimer "45 minutes") ok = s
    ∧ opSends (Op.selectMode "Mode VI") = []
    ∧ step s (Op.selectMode "Mode VI") ok = s := by
  refine ⟨by decide, by decide, by decide, by decide, by decide, ?_, by decide, ?_⟩
  · rw [step, if_neg (by decide)]
  · rw [step, if_neg (by decide)]

/-- Witness for C7 at command `0x07` and payload `[0x10, 0x01, 0x00]`. -/
theorem C7_roundtrip_witness :
    ∃ f, build_packet 0x07 [0x10, 0x01, 0x00] = some f ∧
      parse_frame f = Except.ok (0x07, [0x10, 0x01, 0x00]) :=
  C7_roundtrip 0x07 [0x10, 0x01, 0x00] (by decide) (by decide) (by decide)

/-- Embeds the address canonicalization in `async_setup_entry` (switch.py):

    if ":" not in address:
        address = ":".join(address[i:i+2].upper() for i in range(0, 12, 2))

Address strings are embedded as lists of characters; `address[i:i+2]` is
`(addr.drop i).take 2` and `.upper()` is `Char.toUpper` pointwise. -/
def canonicalize_address (addr : List Char) : List Char :=
  if ':' ∈ addr then addr
  else List.intercalate [':']
    ([0, 2, 4, 6, 8, 10].map fun i => ((addr.drop i).take 2).map Char.toUpper)

/-- Claim C9 counterexample: a lowercase colon-delimited address is passed
through unchanged, so the output is not the uppercase colon-delimited form. -/
theorem C9_counterexample :
    canonicalize_address
        ['a', 'a', ':', 'b', 'b', ':', 'c', 'c', ':', 'd', 'd', ':', 'e', 'e', ':', 'f', 'f'] =
      ['a', 'a', ':', 'b', 'b', ':', 'c', 'c', ':', 'd', 'd', ':', 'e', 'e', ':', 'f', 'f']
    ∧ ['a', 'a', ':', 'b', 'b', ':', 'c', 'c', ':', 'd', 'd', ':', 'e', 'e', ':', 'f', 'f'] ≠
      ['A', 'A', ':', 'B', 'B', ':', 'C', 'C', ':', 'D', 'D', ':', 'E', 'E', ':', 'F', 'F'] := by
  decide

/-- Claim C9 (amended): a bare 12-character address is normalized to the
uppercase colon-delimited form `XX:XX:XX:XX:XX:XX`, but any colon-containing
address is passed through unchanged — its case is preserved, so lowercase
colon-delimited inputs are accepted without being uppercased. -/
theorem C9_canonicalization (c0 c1 c2 c3 c4 c5 c6 c7 c8 c9 c10 c11 : Char)
    (h : ':' ∉ [c0, c1, c2, c3, c4, c5, c6, c7, c8, c9, c10, c11]) :
    canonicalize_address [c0, c1, c2, c3, c4, c5, c6, c7, c8, c9, c10, c11] =
      [c0.toUpper, c1.toUpper, ':', c2.toUpper, c3.toUpper, ':',
       c4.toUpper, c5.toUpper, ':', c6.toUpper, c7.toUpper, ':',
       c8.toUpper, c9.toUpper, ':', c10.toUpper, c11.toUpper]
    ∧ (∀ a : List Char, ':' ∈ a → canonicalize_address a = a) := by
  constructor
  · rw [canonicalize_address, if_neg h]
    rfl
  · intro a ha
    rw [canonicalize_address, if_pos ha]

/-- Witness for C9 (amended) at the bare address `e466e5699181`. -/
theorem C9_canonicalization_witness :
    canonicalize_address ['e', '4', '6', '6', 'e', '5', '6', '9', '9', '1', '8', '1'] =
      [Char.toUpper 'e', Char.toUpper '4', ':', Char.toUpper '6', Char.toUpper '6', ':',
       Char.toUpper 'e', Char.toUpper '5', ':', Char.toUpper '6', Char.toUpper '9', ':',
       Char.toUpper '9', Char.toUpper '1', ':', Char.toUpper '8', Char.toUpper '1']
    ∧ (∀ a : List Char, ':' ∈ a → canonicalize_address a = a) :=
  C9_canonicalization 'e' '4' '6' '6' 'e' '5' '6' '9' '9' '1' '8' '1' (by decide)

/-- Unfolding one entity-level call from a call sequence. -/
theorem runOps_cons (s : DevState) (ob : Op × Bool) (ops : List (Op × Bool)) :
    runOps s (ob :: ops) = runOps (step s ob.1 ob.2) ops := rfl

/-- An entity-level call that is not a valid mode selection never creates or
changes the `mode` attribute. -/
theorem step_preserves_mode (s : DevState) (op : Op) (ok : Bool)
    (h : ∀ o, op = Op.selectMode o → o ∉ MODE_OPTIONS) :
    (step s op ok).mode = s.mode := by
  cases op <;> simp only [step] <;> split_ifs <;> simp_all

/-- A call sequence with no valid mode selection never creates the `mode`
attribute. -/
theorem runOps_preserves_mode (ops : List (Op × Bool)) : ∀ s : DevState,
    (∀ ob ∈ ops, ∀ o, ob.1 = Op.selectMode o → o ∉ MODE_OPTIONS) →
    (runOps s ops).mode = s.mode := by
  induction ops with
  | nil => intro s _; rfl
  | cons hd tl ih =>
    intro s h
    rw [runOps_cons, ih _ fun ob hob => h ob (List.mem_cons_of_mem _ hob),
      step_preserves_mode _ _ _ (h hd (List.mem_cons_self _ _))]

/-- Claim C10: the fresh `XEITINBLEDevice` state defines `power_on`,
`fan_boost`, `modes_active`, `timer` and `intensity` but no `mode` attribute,
so the mode-select entity's `current_option` fails with an attribute error
(modelled as `none`) after every call sequence in which no valid
`async_select_option` has assigned `ble_device.mode`, and succeeds once a
valid option has been selected. -/
theorem C10_mode_attribute (ops : List (Op × Bool))
    (h : ∀ ob ∈ ops, ∀ o, ob.1 = Op.selectMode o → o ∉ MODE_OPTIONS) :
    initState.mode = none
    ∧ current_option (runOps initState ops) = none
    ∧ (∀ s : DevState, ∀ o ∈ MODE_OPTIONS, ∀ ok : Bool,
        (current_option (step s (Op.selectMode o) ok)).isSome = true) := by
  refine ⟨rfl, ?_, ?_⟩
  · have hm : (runOps initState ops).mode = none := runOps_preserves_mode ops initState h
    simp [current_option, hm]
  · intro s o ho ok
    have hidx : MODE_OPTIONS.indexOf o < MODE_OPTIONS.length :=
      List.indexOf_lt_length.2 ho
    simp [step, ho, current_option, hidx]

/-- Witness for C10: a power-on then a failed intensity change leave
`current_option` raising; selecting a valid mode makes it succeed. -/
theorem C10_mode_attribute_witness :
    initState.mode = none
    ∧ current_option (runOps initState
        [(Op.powerOn, true), (Op.setIntensity 3, false)]) = none
    ∧ (∀ s : DevState, ∀ o ∈ MODE_OPTIONS, ∀ ok : Bool,
        (current_option (step s (Op.selectMode o) ok)).isSome = true) :=
  C10_mode_attribute [(Op.powerOn, true), (Op.setIntensity 3, false)]
    (by
      intro ob hob o heq
      rcases List.mem_cons.1 hob with h1 | h1
      · subst h1; simp at heq
      · rcases List.mem_cons.1 h1 with h2 | h2
        · subst h2; simp at heq
        · simp at h2)

/-- Embeds the `DiffuserSchedule` dataclass from xeitin_diffuser.py. -/
structure DiffuserSchedule where
  mode_index : Nat
  enabled : Bool
  start_hour : Nat
  start_minute : Nat
  end_hour : Nat
  end_minute : Nat
  run_time_sec : Nat
  stop_time_sec : Nat
  days : Nat
  deriving DecidableEq, Repr

/-- `DiffuserSchedule.start_minutes_from_midnight`. -/
def DiffuserSchedule.start_minutes_from_midnight (s : DiffuserSchedule) : Nat :=
  s.start_hour * 60 + s.start_minute

/-- `DiffuserSchedule.end_minutes_from_midnight`. -/
def DiffuserSchedule.end_minutes_from_midnight (s : DiffuserSchedule) : Nat :=
  s.end_hour * 60 + s.end_minute

/-- Embeds the `data` bytes built in `XEITINDiffuser.set_schedule`
(xeitin_diffuser.py), byte for byte: mode index, flags, days plus enabled bit,
a zero, the four little-endian 16-bit fields via `& 0xFF` and `>> 8`, and four
padding zeros. -/
def encode_schedule (s : DiffuserSchedule) : List Nat :=
  [ s.mode_index,
    if s.enabled then 0x03 else 0x02,
    s.days ||| (if s.enabled then 0x80 else 0x00),
    0x00,
    s.start_minutes_from_midnight &&& 0xFF,
    (s.start_minutes_from_midnight >>> 8) &&& 0xFF,
    s.end_minutes_from_midnight &&& 0xFF,
    (s.end_minutes_from_midnight >>> 8) &&& 0xFF,
    s.run_time_sec &&& 0xFF,
    (s.run_time_sec >>> 8) &&& 0xFF,
    s.stop_time_sec &&& 0xFF,
    (s.stop_time_sec >>> 8) &&& 0xFF,
    0x00, 0x00, 0x00, 0x00 ]

/-- The 16-byte schedule payload as the spec words it (§4.2): flags `0x03` if
enabled else `0x02`, bit 7 of the days byte set exactly when enabled, and the
start/end/run/stop fields as little-endian 16-bit values written with `%` and
`/`.  Stated separately from `encode_schedule` so their agreement is a
theorem, not a definition. -/
def schedule_layout_spec (s : DiffuserSchedule) : List Nat :=
  [ s.mode_index,
    if s.enabled then 0x03 else 0x02,
    s.days + (if s.enabled then 0x80 else 0x00),
    0x00,
    (s.start_hour * 60 + s.start_minute) % 256,
    (s.start_hour * 60 + s.start_minute) / 256,
    (s.end_hour * 60 + s.end_minute) % 256,
    (s.end_hour * 60 + s.end_minute) / 256,
    s.run_time_sec % 256,
    s.run_time_sec / 256,
    s.stop_time_sec % 256,
    s.stop_time_sec / 256,
    0x00, 0x00, 0x00, 0x00 ]

/-- Masking with `0xFF` is reduction mod 256. -/
theorem and_255_eq_mod (x : Nat) : x &&& 0xFF = x % 256 := by
  have h := Nat.and_pow_two_sub_one_eq_mod x 8
  norm_num at h
  exact h

/-- Shifting right by 8 is division by 256. -/
theorem shiftRight_8_eq_div (x : Nat) : x >>> 8 = x / 256 := by
  have h := Nat.shiftRight_eq_div_pow x 8
  norm_num at h
  exact h

/-- For 16-bit values the high byte needs no masking. -/
theorem hi_byte_eq_div (x : Nat) (hx : x < 65536) :
    (x >>> 8) &&& 0xFF = x / 256 := by
  rw [shiftRight_8_eq_div, and_255_eq_mod]
  omega

/-- Setting bit 7 on a 7-bit days mask is addition of 128. -/
theorem lor_128_eq_add : ∀ d < 128, d ||| 0x80 = d + 0x80 := by decide

/-- Claim C8: for every schedule with mode index 0..4, in-range clock fields,
16-bit run/stop times and a 7-bit days mask, the schedule encoder produces the
16-byte payload `[mode_index, flags, days|enabled_bit, 0x00, start_lo,
start_hi, end_lo, end_hi, run_lo, run_hi, stop_lo, stop_hi, 0, 0, 0, 0]` with
flags `0x03` if enabled else `0x02`, bit 7 of the days byte set exactly when
enabled, and start/end minutes-from-midnight little-endian 16-bit encoded. -/
theorem C8_schedule_encoding (s : DiffuserSchedule)
    (hmi : s.mode_index ≤ 4) (hsh : s.start_hour ≤ 23) (hsm : s.start_minute ≤ 59)
    (heh : s.end_hour ≤ 23) (hem : s.end_minute ≤ 59)
    (hrun : s.run_time_sec < 65536) (hstop : s.stop_time_sec < 65536)
    (hdays : s.days < 128) :
    encode_schedule s = schedule_layout_spec s
    ∧ (encode_schedule s).length = 16
    ∧ Nat.testBit ((encode_schedule s).getD 2 0) 7 = s.enabled
    ∧ (encode_schedule s).getD 4 0 + 256 * (encode_schedule s).getD 5 0 =
        s.start_hour * 60 + s.start_minute
    ∧ (encode_schedule s).getD 6 0 + 256 * (encode_schedule s).getD 7 0 =
        s.end_hour * 60 + s.end_minute
    ∧ (encode_schedule s).getD 8 0 + 256 * (encode_schedule s).getD 9 0 =
        s.run_time_sec
    ∧ (encode_schedule s).getD 10 0 + 256 * (encode_schedule s).getD 11 0 =
        s.stop_time_sec := by
  have htb_hi : ∀ d < 128, Nat.testBit (d + 128) 7 = true := by decide
  have htb_lo : ∀ d < 128, Nat.testBit d 7 = false := by decide
  have heq : encode_schedule s = schedule_layout_spec s := by
    unfold encode_schedule schedule_layout_spec
      DiffuserSchedule.start_minutes_from_midnight
      DiffuserSchedule.end_minutes_from_midnight
    cases s.enabled <;>
      simp only [if_true, if_false, Bool.false_eq_true, Nat.or_zero, Nat.add_zero,
        and_255_eq_mod, hi_byte_eq_div _ (by omega : s.start_hour * 60 + s.start_minute < 65536),
        hi_byte_eq_div _ (by omega : s.end_hour * 60 + s.end_minute < 65536),
        hi_byte_eq_div _ hrun, hi_byte_eq_div _ hstop,
        lor_128_eq_add s.days hdays]
  refine ⟨heq, by rw [heq]; rfl, ?_, ?_, ?_, ?_, ?_⟩
  · rw [heq]
    unfold schedule_layout_spec
    cases he : s.enabled <;>
      simp only [List.getD_cons_succ, List.getD_cons_zero, if_true, if_false,
        Bool.false_eq_true, Nat.add_zero]
    · exact htb_lo s.days hdays
    · exact htb_hi s.days hdays
  all_goals
    rw [heq]
    unfold schedule_layout_spec
    simp only [List.getD_cons_succ, List.getD_cons_zero]
    omega

/-- Witness for C8: a concrete enabled weekday schedule, Mode III, 08:30 to
17:45, 10 s run, 120 s stop, days mask `0x1F`. -/
theorem C8_schedule_encoding_witness :
    (encode_schedule ⟨2, true, 8, 30, 17, 45, 10, 120, 0x1F⟩ =
        schedule_layout_spec ⟨2, true, 8, 30, 17, 45, 10, 120, 0x1F⟩)
    ∧ (encode_schedule ⟨2, true, 8, 30, 17, 45, 10, 120, 0x1F⟩).length = 16
    ∧ Nat.testBit ((encode_schedule ⟨2, true, 8, 30, 17, 45, 10, 120, 0x1F⟩).getD 2 0) 7 = true
    ∧ (encode_schedule ⟨2, true, 8, 30, 17, 45, 10, 120, 0x1F⟩).getD 4 0 +
        256 * (encode_schedule ⟨2, true, 8, 30, 17, 45, 10, 120, 0x1F⟩).getD 5 0 =
        8 * 60 + 30
    ∧ (encode_schedule ⟨2, true, 8, 30, 17, 45, 10, 120, 0x1F⟩).getD 6 0 +
        256 * (encode_schedule ⟨2, true, 8, 30, 17, 45, 10, 120, 0x1F⟩).getD 7 0 =
        17 * 60 + 45
    ∧ (encode_schedule ⟨2, true, 8, 30, 17, 45, 10, 120, 0x1F⟩).getD 8 0 +
        256 * (encode_schedule ⟨2, true, 8, 30, 17, 45, 10, 120, 0x1F⟩).getD 9 0 = 10
    ∧ (encode_schedule ⟨2, true, 8, 30, 17, 45, 10, 120, 0x1F⟩).getD 10 0 +
        256 * (encode_schedule ⟨2, true, 8, 30, 17, 45, 10, 120, 0x1F⟩).getD 11 0 = 120 :=
  C8_schedule_encoding ⟨2, true, 8, 30, 17, 45, 10, 120, 0x1F⟩
    (by decide) (by decide) (by decide) (by decide) (by decide)
    (by decide) (by decide) (by decide)

end Xeitin
